import Mathlib

/-!
Shallow embedding of `src/sentry/tasks/integrations.py`.

Each Celery task body is translated into a pure Lean function over an explicit
database snapshot (`DB`) and an explicit installation behaviour (`Nat → Installation`,
keyed by integration id, standing for `integration.get_installation(...)`).
A task run is summarised by the list of external side effects it performed
(installation calls, analytics records, saves, logs) together with the exception,
if any, that escaped the task body.  Django `Model.objects.get(id=...)` becomes
`List.find?` over the snapshot's row list, raising the model's `DoesNotExist`
when the row is absent; `Model.objects.filter(...)[0]` with the `IndexError`
handler becomes `List.find?` with a `none` fall-through.  Timestamps are `Int`
(seconds), so `datetime.now() - timedelta(hours=6)` is ordinary subtraction.
-/

namespace Sentry

/-- Status constants of `GroupStatus` used by the task module (`sentry.models`). -/
def GroupStatus.UNRESOLVED : Nat := 0

/-- Constant `GroupStatus.RESOLVED`. -/
def GroupStatus.RESOLVED : Nat := 1

/-- Constant `GroupStatus.IGNORED`, an example of a status outside the sync filter. -/
def GroupStatus.IGNORED : Nat := 2

/-- Constant `ObjectStatus.VISIBLE` (`sentry.constants`). -/
def ObjectStatus.VISIBLE : Nat := 0

/-- Constant `ObjectStatus.DISABLED`. -/
def ObjectStatus.DISABLED : Nat := 1

/-- Constant `ObjectStatus.PENDING_DELETION`, an example of a non-DISABLED, non-VISIBLE status. -/
def ObjectStatus.PENDING_DELETION : Nat := 2

/-- Enum `GroupLink.LinkedType`. -/
inductive LinkedType where
  | commit
  | pull_request
  | issue
deriving DecidableEq

/-- Row of `sentry.models.ExternalIssue`. -/
structure ExternalIssue where
  id : Nat
  organization_id : Nat
  integration_id : Nat
  key : String
deriving DecidableEq

/-- The `subscription` record embedded in a VSTS integration's metadata:
`{'id': ..., 'check': ...}` where the `'check'` key may be absent. -/
structure Subscription where
  id : Nat
  check : Option Int
deriving DecidableEq

/-- The integration's mutable metadata map; only the `subscription` key is
touched by this module, and it may be absent (`KeyError` on access). -/
structure Metadata where
  subscription : Option Subscription
deriving DecidableEq

/-- Row of `sentry.models.Integration`. -/
structure Integration where
  id : Nat
  provider : String
  metadata : Metadata
deriving DecidableEq

/-- Row of `sentry.models.OrganizationIntegration`, with its
`select_related('integration')` row inlined. -/
structure OrganizationIntegration where
  organization_id : Nat
  integration : Integration
deriving DecidableEq

/-- Row of `sentry.models.Group`. -/
structure Group where
  id : Nat
  status : Nat
  organization_id : Nat
  project_id : Nat
deriving DecidableEq

/-- Row of `sentry.models.GroupLink`. -/
structure GroupLink where
  project_id : Nat
  group_id : Nat
  linked_type : LinkedType
  linked_id : Nat
deriving DecidableEq

/-- Row of `sentry.models.Repository`. -/
structure Repository where
  id : Nat
  integration_id : Option Nat
  provider : Option String
  status : Nat
deriving DecidableEq

/-- Database snapshot seen by one task execution.  `issueSyncFlag oid` is the
value of `features.has('organizations:integrations-issue-sync', org)` for the
organization with id `oid`; organizations and users are kept as id lists since
the tasks only ever test their existence. -/
structure DB where
  externalIssues : List ExternalIssue
  integrations : List Integration
  organizations : List Nat
  users : List Nat
  groups : List Group
  groupLinks : List GroupLink
  repositories : List Repository
  orgIntegrations : List OrganizationIntegration
  issueSyncFlag : Nat → Bool

/-- Behaviour of `integration.get_installation(...)` and of the provider client
it hands out: `shouldSync kind` is `installation.should_sync(kind)`,
`hasRepoAccess` is `installation.has_repo_access(repo)`, `syncMetadataRaises`
says whether `installation.sync_metadata()` raises `IntegrationError`, and
`getSubscriptionStatus sid` is `client.get_subscription(...)['status']`. -/
structure Installation where
  shouldSync : String → Bool
  hasRepoAccess : Repository → Bool
  syncMetadataRaises : Bool
  getSubscriptionStatus : Nat → String

/-- External side effects a task run can perform. -/
inductive Effect where
  | createComment (key : String) (user_id : Nat) (text : String)
  | assigneeOutboundCall (external_issue_id : Nat) (user_id : Option Nat) (assign : Bool)
  | statusOutboundCall (external_issue_id : Nat) (resolved : Bool) (project_id : Nat)
  | metadataSyncCall (integration_id : Nat)
  | analyticsRecord (event : String)
  | logInfo (event : String)
  | repoSave (repo : Repository)
  | migratorRun (integration_id : Nat) (organization_id : Nat)
  | getSubscriptionCall (subscription_id : Nat)
  | updateSubscriptionCall (subscription_id : Nat)
  | integrationSave (integration_id : Nat)
deriving DecidableEq

/-- Exceptions that can escape a task body in this module. -/
inductive SyncError where
  | externalIssueDoesNotExist
  | integrationDoesNotExist
  | userDoesNotExist
  | organizationDoesNotExist
  | repositoryDoesNotExist
  | integrationError
  | keyError
  | attributeError
deriving DecidableEq

/-- Outcome of one task-body execution: the side effects performed, and the
exception (if any) that escaped. -/
structure JobRun where
  effects : List Effect
  err : Option SyncError
deriving DecidableEq

/-- Lookup `ExternalIssue.objects.get(id=...)`. -/
def findExternalIssue (db : DB) (eid : Nat) : Option ExternalIssue :=
  db.externalIssues.find? fun ei => ei.id == eid

/-- Lookup `Integration.objects.get(id=...)`. -/
def findIntegration (db : DB) (iid : Nat) : Option Integration :=
  db.integrations.find? fun i => i.id == iid

/-- Lookup `Repository.objects.get(id=...)`. -/
def findRepository (db : DB) (rid : Nat) : Option Repository :=
  db.repositories.find? fun r => r.id == rid

/-- Task `sentry.tasks.integrations.post_comment`: sync Sentry comments to an
external issue. -/
def post_comment (db : DB) (inst : Nat → Installation)
    (external_issue_id : Nat) (data_text : String) (user_id : Nat) : JobRun :=
  match findExternalIssue db external_issue_id with
  | none => ⟨[], some .externalIssueDoesNotExist⟩
  | some external_issue =>
    if db.organizations.contains external_issue.organization_id then
      let has_issue_sync := db.issueSyncFlag external_issue.organization_id
      if !has_issue_sync then ⟨[], none⟩
      else
        match findIntegration db external_issue.integration_id with
        | none => ⟨[], some .integrationDoesNotExist⟩
        | some integration =>
          let installation := inst integration.id
          if installation.shouldSync "comment" then
            ⟨[.createComment external_issue.key user_id data_text,
              .analyticsRecord "integration.issue.comments.synced"], none⟩
          else ⟨[], none⟩
    else ⟨[], some .organizationDoesNotExist⟩

/-- Task `sentry.tasks.integrations.jira.sync_metadata`. -/
def sync_metadata (db : DB) (inst : Nat → Installation) (integration_id : Nat) : JobRun :=
  match findIntegration db integration_id with
  | none => ⟨[], some .integrationDoesNotExist⟩
  | some integration =>
    let installation := inst integration.id
    ⟨[.metadataSyncCall integration.id],
     if installation.syncMetadataRaises then some .integrationError else none⟩

/-- Task `sentry.tasks.integrations.sync_assignee_outbound`: sync Sentry assignee to
an external issue; `user_id = none` means unassign. -/
def sync_assignee_outbound (db : DB) (inst : Nat → Installation)
    (external_issue_id : Nat) (user_id : Option Nat) (assign : Bool) : JobRun :=
  match findExternalIssue db external_issue_id with
  | none => ⟨[], some .externalIssueDoesNotExist⟩
  | some external_issue =>
    if db.organizations.contains external_issue.organization_id then
      let has_issue_sync := db.issueSyncFlag external_issue.organization_id
      if !has_issue_sync then ⟨[], none⟩
      else
        match findIntegration db external_issue.integration_id with
        | none => ⟨[], some .integrationDoesNotExist⟩
        | some integration =>
          match user_id with
          | some uid =>
            if db.users.contains uid then
              let installation := inst integration.id
              if installation.shouldSync "outbound_assignee" then
                ⟨[.assigneeOutboundCall external_issue.id (some uid) assign,
                  .analyticsRecord "integration.issue.assignee.synced"], none⟩
              else ⟨[], none⟩
            else ⟨[], some .userDoesNotExist⟩
          | none =>
            let installation := inst integration.id
            if installation.shouldSync "outbound_assignee" then
              ⟨[.assigneeOutboundCall external_issue.id none assign,
                .analyticsRecord "integration.issue.assignee.synced"], none⟩
            else ⟨[], none⟩
    else ⟨[], some .organizationDoesNotExist⟩

/-- Lookup `Group.objects.filter(id=group_id, status__in=[UNRESOLVED, RESOLVED])[0]`,
with the `IndexError` handler mapping the empty result to `none`. -/
def findStatusSyncGroup (db : DB) (gid : Nat) : Option Group :=
  db.groups.find? fun g =>
    g.id == gid && (g.status == GroupStatus.UNRESOLVED || g.status == GroupStatus.RESOLVED)

/-- Task `sentry.tasks.integrations.sync_status_outbound`. -/
def sync_status_outbound (db : DB) (inst : Nat → Installation)
    (group_id : Nat) (external_issue_id : Nat) : JobRun :=
  match findStatusSyncGroup db group_id with
  | none => ⟨[], none⟩
  | some group =>
    if db.organizations.contains group.organization_id then
      let has_issue_sync := db.issueSyncFlag group.organization_id
      if !has_issue_sync then ⟨[], none⟩
      else
        match findExternalIssue db external_issue_id with
        | none => ⟨[], some .externalIssueDoesNotExist⟩
        | some external_issue =>
          match findIntegration db external_issue.integration_id with
          | none => ⟨[], some .integrationDoesNotExist⟩
          | some integration =>
            let installation := inst integration.id
            if installation.shouldSync "outbound_status" then
              ⟨[.statusOutboundCall external_issue.id
                  (group.status == GroupStatus.RESOLVED) group.project_id,
                .analyticsRecord "integration.issue.status.synced"], none⟩
            else ⟨[], none⟩
    else ⟨[], some .organizationDoesNotExist⟩

/-- One `sync_status_outbound.apply_async(kwargs=...)` submission performed by
`kick_off_status_syncs`. -/
structure StatusSyncJob where
  group_id : Nat
  external_issue_id : Nat
deriving DecidableEq

/-- Task `sentry.tasks.integrations.kick_off_status_syncs`: one status-sync job per
`GroupLink` of linked type `issue` matching `(project_id, group_id)`. -/
def kick_off_status_syncs (db : DB) (project_id : Nat) (group_id : Nat) : List StatusSyncJob :=
  let external_issue_ids :=
    (db.groupLinks.filter fun l =>
      l.project_id == project_id && l.group_id == group_id &&
        l.linked_type == LinkedType.issue).map fun l => l.linked_id
  external_issue_ids.map fun external_issue_id => ⟨group_id, external_issue_id⟩

/-- Outcome of `migrate_repo`: effects, escaped exception, and the post-run
state of the repository row being migrated (`none` when that row is absent). -/
structure MigrateRun where
  effects : List Effect
  err : Option SyncError
  repo : Option Repository
deriving DecidableEq

/-- Task `sentry.tasks.integrations.migrate_repo`.  Note the source performs
`repo.save()` and the migrated log before it resolves the Organization for
`Migrator.run`, so a missing organization raises only after the repository has
been rebound and saved. -/
def migrate_repo (db : DB) (inst : Nat → Installation)
    (repo_id : Nat) (integration_id : Nat) (organization_id : Nat) : MigrateRun :=
  match findIntegration db integration_id with
  | none => ⟨[], some .integrationDoesNotExist, findRepository db repo_id⟩
  | some integration =>
    let installation := inst integration.id
    match findRepository db repo_id with
    | none => ⟨[], some .repositoryDoesNotExist, none⟩
    | some repo =>
      if installation.hasRepoAccess repo then
        let changeLog : List Effect :=
          match repo.integration_id with
          | some old =>
            if old != integration_id then [.logInfo "repo.migration.integration-change"] else []
          | none => []
        let repo' : Repository :=
          { repo with
            integration_id := some integration_id
            provider := some ("integrations:" ++ integration.provider)
            status :=
              if repo.status == ObjectStatus.DISABLED then ObjectStatus.VISIBLE
              else repo.status }
        if db.organizations.contains organization_id then
          ⟨changeLog ++ [.repoSave repo', .logInfo "repo.migrated",
            .migratorRun integration.id organization_id], none, some repo'⟩
        else
          ⟨changeLog ++ [.repoSave repo', .logInfo "repo.migrated"],
            some .organizationDoesNotExist, some repo'⟩
      else ⟨[], none, some repo⟩

/-- Outcome of `vsts_subscription_check`: effects, escaped exception, and the
post-run state of the integration it was handed. -/
structure VstsRun where
  effects : List Effect
  err : Option SyncError
  integration : Integration
deriving DecidableEq

/-- Task `sentry.tasks.integrations.vsts_subscription_check`.  Here `now` is the value of
`datetime.now()` at the metadata write. -/
def vsts_subscription_check (integration : Integration) (inst : Nat → Installation)
    (organization_id : Nat) (now : Int) : VstsRun :=
  let installation := inst integration.id
  match integration.metadata.subscription with
  | none => ⟨[], some .keyError, integration⟩
  | some sub =>
    let subscription_id := sub.id
    let status := installation.getSubscriptionStatus subscription_id
    if status == "disabledBySystem" then
      let integration' : Integration :=
        { integration with metadata := ⟨some { sub with check := some now }⟩ }
      ⟨[.getSubscriptionCall subscription_id, .updateSubscriptionCall subscription_id,
        .integrationSave integration.id], none, integration'⟩
    else
      ⟨[.getSubscriptionCall subscription_id], none, integration⟩

/-- Constant `timedelta(hours=6)` in seconds. -/
def sixHours : Int := 6 * 60 * 60

/-- The sweep-loop guard of `kickoff_vsts_subscription_check` for one
org-integration's metadata: `continue` on a missing `subscription` key
(`KeyError`), `continue` when `subscription['check'] > now - 6h`, and proceed
(`pass`) when the `'check'` key is absent. -/
def subscriptionDue (metadata : Metadata) (now : Int) : Bool :=
  match metadata.subscription with
  | none => false
  | some sub =>
    match sub.check with
    | some c => if c > now - sixHours then false else true
    | none => true

/-- Outcome of one `kickoff_vsts_subscription_check` run: effects performed and
the exception that escaped, if any. -/
structure KickoffRun where
  effects : List Effect
  err : Option SyncError
deriving DecidableEq

/-- The sweep loop of `kickoff_vsts_subscription_check`.  The source's
submission expression is `vsts_subscription_check(integration,
organization_id).apply_async(kwargs=...)`: calling the task object runs its
body synchronously and returns the function's `None`, so the subsequent
`.apply_async` attribute access raises `AttributeError` and ends the loop
(compare the file's own `sync_status_outbound.apply_async(kwargs=...)`). -/
def kickoffGo (inst : Nat → Installation) (now : Int) :
    List OrganizationIntegration → KickoffRun
  | [] => ⟨[], none⟩
  | oi :: rest =>
    if subscriptionDue oi.integration.metadata now then
      let r := vsts_subscription_check oi.integration inst oi.organization_id now
      match r.err with
      | some e => ⟨r.effects, some e⟩
      | none => ⟨r.effects, some .attributeError⟩
    else kickoffGo inst now rest

/-- Task `sentry.tasks.integrations.kickoff_vsts_subscription_check`:
`OrganizationIntegration.objects.filter(integration__provider='vsts')`, then
the sweep loop with `update_interval = datetime.now() - timedelta(hours=6)`. -/
def kickoff_vsts_subscription_check (db : DB) (inst : Nat → Installation)
    (now : Int) : KickoffRun :=
  kickoffGo inst now
    (db.orgIntegrations.filter fun oi => oi.integration.provider == "vsts")

/-- Retry outcome of the dispatcher for one raised error. -/
inductive RetryOutcome where
  | abort
  | excluded
  | retryable
deriving DecidableEq

/-- Modelled from the spec: the retry/classification engine
(`sentry.tasks.base.retry` and `instrumented_task`) is not part of this source
tree.  Per spec section 4.1, errors in a job's Abort set are dropped with no
retry, errors in its Excluded set are surfaced with no retry, and anything else
is retryable up to the attempt budget.  `post_comment` declares
`ExternalIssue.DoesNotExist` and `Integration.DoesNotExist` (spec 4.3: Abort
set); everything else is retryable. -/
def post_comment_classify : SyncError → RetryOutcome
  | .externalIssueDoesNotExist => .abort
  | .integrationDoesNotExist => .abort
  | _ => .retryable

/-- Modelled from the spec: classification for `sync_metadata` (spec 4.3 table:
Abort set is a missing Integration; Excluded set is the declared integration
error). -/
def sync_metadata_classify : SyncError → RetryOutcome
  | .integrationDoesNotExist => .abort
  | .integrationError => .excluded
  | _ => .retryable

/-- Modelled from the spec: classification for `sync_assignee_outbound`
(spec 4.3: Abort set is ExternalIssue, Integration, User, Organization
missing). -/
def sync_assignee_classify : SyncError → RetryOutcome
  | .externalIssueDoesNotExist => .abort
  | .integrationDoesNotExist => .abort
  | .userDoesNotExist => .abort
  | .organizationDoesNotExist => .abort
  | _ => .retryable

/-- Modelled from the spec: classification for `sync_status_outbound`
(spec 4.3: Abort set is ExternalIssue, Integration missing). -/
def sync_status_classify : SyncError → RetryOutcome
  | .externalIssueDoesNotExist => .abort
  | .integrationDoesNotExist => .abort
  | _ => .retryable

/-- Whether the dispatcher re-enqueues after the given classification. -/
def RetryOutcome.reenqueues : RetryOutcome → Bool
  | .retryable => true
  | _ => false

/-- Modelled from the spec: total attempts the dispatcher makes for a job whose
body behaves deterministically (spec 4.2): success or a non-retryable error
means one attempt; a retryable error recurs on every attempt and so consumes
the initial attempt plus the whole retry budget. -/
def attemptCount (classify : SyncError → RetryOutcome) (run : JobRun)
    (max_retries : Nat) : Nat :=
  match run.err with
  | none => 1
  | some e => if (classify e).reenqueues then max_retries + 1 else 1


/-- Empty database snapshot used as a base for the concrete examples. -/
def emptyDB : DB :=
  { externalIssues := [], integrations := [], organizations := [], users := []
    groups := [], groupLinks := [], repositories := [], orgIntegrations := []
    issueSyncFlag := fun _ => false }

/-- Example installation behaviour: syncs everything, grants repo access,
`sync_metadata` succeeds, live subscription status is `'enabled'`. -/
def exInst : Nat → Installation := fun _ =>
  { shouldSync := fun _ => true
    hasRepoAccess := fun _ => true
    syncMetadataRaises := false
    getSubscriptionStatus := fun _ => "enabled" }

/-- Example database for C1: the issue-sync flag is false for every
organization, and integration 20 exists. -/
def exDb1 : DB := { emptyDB with integrations := [⟨20, "jira", ⟨none⟩⟩] }

/-- C1: counterexample.  With the issue-sync feature flag false for every
organization, `sync_metadata` still performs its installation call
(`installation.sync_metadata()`): its body contains no feature-flag check, so
the operation is not a no-op, contrary to the claim's coverage of all five
operations. -/
theorem c1_counterexample :
    (∀ oid, exDb1.issueSyncFlag oid = false) ∧
      (sync_metadata exDb1 exInst 20).effects = [Effect.metadataSyncCall 20] :=
  ⟨fun _ => rfl, rfl⟩

/-- C1 (amended): the three operations that do gate on the flag complete as
pure no-ops — no installation call, no entity write, no analytics record, no
error — whenever the flag is false for the relevant organization (the
referenced external issue's organization for `post_comment` and
`sync_assignee_outbound`, the group's organization for
`sync_status_outbound`), regardless of the flag value for any other
organization and of what `should_sync` would return; `sync_metadata` and
`migrate_repo` never consult the flag: their outcome is unchanged under an
arbitrary replacement of the flag function. -/
theorem c1_amended (db : DB) (inst : Nat → Installation) :
    (∀ eid text uid ei, findExternalIssue db eid = some ei →
      db.organizations.contains ei.organization_id = true →
      db.issueSyncFlag ei.organization_id = false →
      post_comment db inst eid text uid = ⟨[], none⟩) ∧
    (∀ eid uid assign ei, findExternalIssue db eid = some ei →
      db.organizations.contains ei.organization_id = true →
      db.issueSyncFlag ei.organization_id = false →
      sync_assignee_outbound db inst eid uid assign = ⟨[], none⟩) ∧
    (∀ gid eid g, findStatusSyncGroup db gid = some g →
      db.organizations.contains g.organization_id = true →
      db.issueSyncFlag g.organization_id = false →
      sync_status_outbound db inst gid eid = ⟨[], none⟩) ∧
    (∀ iid flagfn, sync_metadata db inst iid =
      sync_metadata { db with issueSyncFlag := flagfn } inst iid) ∧
    (∀ rid iid oid flagfn, migrate_repo db inst rid iid oid =
      migrate_repo { db with issueSyncFlag := flagfn } inst rid iid oid) := by
  refine ⟨fun eid text uid ei hei hc hf => ?_, fun eid uid assign ei hei hc hf => ?_,
    fun gid eid g hg hc hf => ?_, fun iid flagfn => rfl, fun rid iid oid flagfn => rfl⟩
  · unfold post_comment
    rw [hei]
    have hc2 : ei.organization_id ∈ db.organizations := by simpa using hc
    simp [hc2, hf]
  · unfold sync_assignee_outbound
    rw [hei]
    have hc2 : ei.organization_id ∈ db.organizations := by simpa using hc
    simp [hc2, hf]
  · unfold sync_status_outbound
    rw [hg]
    have hc2 : g.organization_id ∈ db.organizations := by simpa using hc
    simp [hc2, hf]

/-- Example database for C1's amended claim, with mixed flags: organization 1
(the relevant one) has the issue-sync flag false while organization 2 has it
true; external issue 10 belongs to organization 1 and its integration 20
exists, and group 61 is UNRESOLVED in organization 1. -/
def exDb1m : DB := { emptyDB with
  externalIssues := [⟨10, 1, 20, "PROJ-1"⟩]
  integrations := [⟨20, "jira", ⟨none⟩⟩]
  organizations := [1, 2]
  groups := [⟨61, GroupStatus.UNRESOLVED, 1, 2⟩]
  issueSyncFlag := fun oid => oid == 2 }

/-- C1 (amended) witness at the mixed-flag database: the three gated
operations no-op on organization 1 although organization 2's flag is true,
and `sync_metadata`/`migrate_repo` behave identically under a replaced flag
function. -/
theorem c1_amended_witness :
    post_comment exDb1m exInst 10 "hello" 7 = ⟨[], none⟩ ∧
    sync_assignee_outbound exDb1m exInst 10 (some 7) true = ⟨[], none⟩ ∧
    sync_status_outbound exDb1m exInst 61 10 = ⟨[], none⟩ ∧
    sync_metadata exDb1m exInst 20 =
      sync_metadata { exDb1m with issueSyncFlag := fun _ => false } exInst 20 ∧
    migrate_repo exDb1m exInst 50 20 1 =
      migrate_repo { exDb1m with issueSyncFlag := fun _ => false } exInst 50 20 1 :=
  ⟨(c1_amended exDb1m exInst).1 10 "hello" 7 ⟨10, 1, 20, "PROJ-1"⟩ rfl rfl rfl,
   (c1_amended exDb1m exInst).2.1 10 (some 7) true ⟨10, 1, 20, "PROJ-1"⟩ rfl rfl rfl,
   (c1_amended exDb1m exInst).2.2.1 61 10 ⟨61, GroupStatus.UNRESOLVED, 1, 2⟩ rfl rfl rfl,
   (c1_amended exDb1m exInst).2.2.2.1 20 (fun _ => false),
   (c1_amended exDb1m exInst).2.2.2.2 50 20 1 (fun _ => false)⟩

/-- Example database for C2: integration 21 exists. -/
def exDb2 : DB := { emptyDB with integrations := [⟨21, "jira", ⟨none⟩⟩] }

/-- Example installation whose `sync_metadata` raises `IntegrationError`. -/
def exInstRaise : Nat → Installation := fun _ =>
  { shouldSync := fun _ => true
    hasRepoAccess := fun _ => true
    syncMetadataRaises := true
    getSubscriptionStatus := fun _ => "enabled" }

/-- C2: when `sync_metadata`'s body raises the declared `IntegrationError`,
the spec-modelled dispatcher classifies it as excluded, so the error is
surfaced but the job is attempted exactly once under its `max_retries=5`
budget and never re-enqueued. -/
theorem c2_sync_metadata_once (db : DB) (inst : Nat → Installation) (iid : Nat)
    (integ : Integration) (hfind : findIntegration db iid = some integ)
    (hraise : (inst integ.id).syncMetadataRaises = true) :
    (sync_metadata db inst iid).err = some SyncError.integrationError ∧
    (sync_metadata_classify SyncError.integrationError).reenqueues = false ∧
    attemptCount sync_metadata_classify (sync_metadata db inst iid) 5 = 1 := by
  unfold sync_metadata attemptCount
  rw [hfind]
  simp [hraise, sync_metadata_classify, RetryOutcome.reenqueues]

/-- C2 witness at a concrete misconfigured integration. -/
theorem c2_sync_metadata_once_witness :
    (sync_metadata exDb2 exInstRaise 21).err = some SyncError.integrationError ∧
    (sync_metadata_classify SyncError.integrationError).reenqueues = false ∧
    attemptCount sync_metadata_classify (sync_metadata exDb2 exInstRaise 21) 5 = 1 :=
  c2_sync_metadata_once exDb2 exInstRaise 21 ⟨21, "jira", ⟨none⟩⟩ rfl rfl

/-- Example database for C3: external issue 10 references integration 20,
which has been deleted; organization 1 exists but its issue-sync flag is
false. -/
def exDb3 : DB := { emptyDB with
  externalIssues := [⟨10, 1, 20, "PROJ-1"⟩]
  organizations := [1] }

/-- C3: counterexample.  In `post_comment`, with the referenced Integration
deleted but the organization's issue-sync flag false, the job returns
normally before the Integration lookup is ever attempted: no
`Integration.DoesNotExist` is raised, so the claim's "the job raises the
corresponding DoesNotExist" does not hold in this state. -/
theorem c3_counterexample :
    findIntegration exDb3 20 = none ∧
      post_comment exDb3 exInst 10 "a comment" 7 = ⟨[], none⟩ :=
  ⟨rfl, rfl⟩

/-- C3 (amended): when an entity of the job's Abort set has been deleted, the
job performs no installation call, no analytics record and no entity write
(its effect list is empty).  When the body does raise, a missing ExternalIssue
(and, for `sync_assignee_outbound`, a missing Organization) yields exactly the
corresponding `DoesNotExist`; and every Abort-set `DoesNotExist` is classified
non-retryable by the spec-modelled dispatcher, so such a failure is never
re-enqueued.  The job need not raise at all: with the feature flag off (or the
group filtered out) it completes as a normal no-op. -/
theorem c3_abort (db : DB) (inst : Nat → Installation) :
    (∀ eid text uid, findExternalIssue db eid = none →
      post_comment db inst eid text uid = ⟨[], some SyncError.externalIssueDoesNotExist⟩) ∧
    (∀ eid text uid ei, findExternalIssue db eid = some ei →
      findIntegration db ei.integration_id = none →
      (post_comment db inst eid text uid).effects = []) ∧
    (∀ eid uid assign, findExternalIssue db eid = none →
      sync_assignee_outbound db inst eid uid assign =
        ⟨[], some SyncError.externalIssueDoesNotExist⟩) ∧
    (∀ eid uid assign ei, findExternalIssue db eid = some ei →
      findIntegration db ei.integration_id = none →
      (sync_assignee_outbound db inst eid uid assign).effects = []) ∧
    (∀ eid uid assign, db.users.contains uid = false →
      (sync_assignee_outbound db inst eid (some uid) assign).effects = []) ∧
    (∀ eid uid assign ei, findExternalIssue db eid = some ei →
      db.organizations.contains ei.organization_id = false →
      sync_assignee_outbound db inst eid uid assign =
        ⟨[], some SyncError.organizationDoesNotExist⟩) ∧
    (∀ gid eid, findExternalIssue db eid = none →
      (sync_status_outbound db inst gid eid).effects = []) ∧
    (∀ gid eid ei, findExternalIssue db eid = some ei →
      findIntegration db ei.integration_id = none →
      (sync_status_outbound db inst gid eid).effects = []) ∧
    ((post_comment_classify .externalIssueDoesNotExist).reenqueues = false ∧
      (post_comment_classify .integrationDoesNotExist).reenqueues = false ∧
      (sync_assignee_classify .externalIssueDoesNotExist).reenqueues = false ∧
      (sync_assignee_classify .integrationDoesNotExist).reenqueues = false ∧
      (sync_assignee_classify .userDoesNotExist).reenqueues = false ∧
      (sync_assignee_classify .organizationDoesNotExist).reenqueues = false ∧
      (sync_status_classify .externalIssueDoesNotExist).reenqueues = false ∧
      (sync_status_classify .integrationDoesNotExist).reenqueues = false) := by
  refine ⟨fun eid text uid h => ?_, fun eid text uid ei hei hint => ?_,
    fun eid uid assign h => ?_, fun eid uid assign ei hei hint => ?_,
    fun eid uid assign huser => ?_, fun eid uid assign ei hei horg => ?_,
    fun gid eid h => ?_, fun gid eid ei hei hint => ?_, by decide⟩
  · unfold post_comment
    rw [h]
  · unfold post_comment
    rw [hei]
    simp only [hint]
    split <;> try rfl
    split <;> rfl
  · unfold sync_assignee_outbound
    rw [h]
  · unfold sync_assignee_outbound
    rw [hei]
    simp only [hint]
    split <;> try rfl
    split <;> rfl
  · unfold sync_assignee_outbound
    cases hei : findExternalIssue db eid with
    | none => rfl
    | some ei =>
      simp only [huser]
      split <;> try rfl
      split <;> try rfl
      split <;> simp
  · unfold sync_assignee_outbound
    rw [hei]
    have horg2 : ei.organization_id ∉ db.organizations := by simpa using horg
    simp [horg2]
  · unfold sync_status_outbound
    cases hg : findStatusSyncGroup db gid with
    | none => rfl
    | some g =>
      simp only [h]
      split <;> try rfl
      split <;> rfl
  · unfold sync_status_outbound
    cases hg : findStatusSyncGroup db gid with
    | none => rfl
    | some g =>
      simp only [hei, hint]
      split <;> try rfl
      split <;> rfl

/-- C3 (amended) witness: a deleted ExternalIssue makes `post_comment` fail
with exactly `ExternalIssue.DoesNotExist` and no side effect. -/
theorem c3_abort_witness :
    post_comment exDb3 exInst 99 "a comment" 7 =
      ⟨[], some SyncError.externalIssueDoesNotExist⟩ :=
  (c3_abort exDb3 exInst).1 99 "a comment" 7 rfl

/-- C4: `kick_off_status_syncs(project_id, group_id)` submits exactly one
`sync_status_outbound` job per GroupLink row of linked type `issue` matching
`(project_id, group_id)` — the job count equals the matching-link count (so K
links give K jobs and zero links give zero jobs with no error), every
submitted job carries `group_id` and the linked external-issue id of some
matching link, and every matching link yields its job. -/
theorem c4_kick_off (db : DB) (project_id group_id : Nat) :
    (kick_off_status_syncs db project_id group_id).length =
      (db.groupLinks.filter fun l =>
        l.project_id == project_id && l.group_id == group_id &&
          l.linked_type == LinkedType.issue).length ∧
    ((db.groupLinks.filter fun l =>
        l.project_id == project_id && l.group_id == group_id &&
          l.linked_type == LinkedType.issue) = [] →
      kick_off_status_syncs db project_id group_id = []) ∧
    (∀ j ∈ kick_off_status_syncs db project_id group_id,
      j.group_id = group_id ∧
        ∃ l ∈ db.groupLinks, l.project_id = project_id ∧ l.group_id = group_id ∧
          l.linked_type = LinkedType.issue ∧ l.linked_id = j.external_issue_id) ∧
    (∀ l ∈ db.groupLinks, l.project_id = project_id → l.group_id = group_id →
      l.linked_type = LinkedType.issue →
      (⟨group_id, l.linked_id⟩ : StatusSyncJob) ∈
        kick_off_status_syncs db project_id group_id) := by
  refine ⟨by simp [kick_off_status_syncs], fun hempty => ?_, fun j hj => ?_,
    fun l hl h1 h2 h3 => ?_⟩
  · simp [kick_off_status_syncs, hempty]
  · simp only [kick_off_status_syncs, List.map_map, List.mem_map,
      List.mem_filter, Function.comp] at hj
    obtain ⟨l, ⟨hl, hcond⟩, rfl⟩ := hj
    simp only [Bool.and_eq_true, beq_iff_eq] at hcond
    exact ⟨rfl, l, hl, hcond.1.1, hcond.1.2, hcond.2, rfl⟩
  · simp only [kick_off_status_syncs, List.map_map, List.mem_map,
      List.mem_filter, Function.comp]
    exact ⟨l, ⟨hl, by simp [h1, h2, h3]⟩, rfl⟩

/-- Example database for C4: two issue links for `(project 1, group 2)`, one
commit link and one issue link of another project. -/
def exDb4 : DB := { emptyDB with
  groupLinks := [⟨1, 2, LinkedType.issue, 10⟩, ⟨1, 2, LinkedType.issue, 11⟩,
    ⟨1, 2, LinkedType.commit, 12⟩, ⟨3, 2, LinkedType.issue, 13⟩] }

/-- C4 witness: with two matching links, two jobs are submitted and the job
for link 10 carries `(group 2, external issue 10)`. -/
theorem c4_kick_off_witness :
    (kick_off_status_syncs exDb4 1 2).length = 2 ∧
      (⟨2, 10⟩ : StatusSyncJob) ∈ kick_off_status_syncs exDb4 1 2 :=
  ⟨(c4_kick_off exDb4 1 2).1.trans (by decide),
   (c4_kick_off exDb4 1 2).2.2.2 ⟨1, 2, LinkedType.issue, 10⟩ (by decide) rfl rfl rfl⟩

/-- Example VSTS integration for C5/C10: its subscription has never been
checked (the `'check'` key is absent), so the sweep marks it due. -/
def exIntegration5 : Integration := ⟨30, "vsts", ⟨some ⟨7, none⟩⟩⟩

/-- Example database for C5: one VSTS org-integration. -/
def exDb5 : DB := { emptyDB with orgIntegrations := [⟨1, exIntegration5⟩] }

/-- C5: at a concrete scan with exactly one VSTS org-integration whose
subscription carries no last-check timestamp, the sweep guard marks it due —
per the claim exactly one `vsts_subscription_check` job should be submitted —
but the run instead executes the check synchronously (the `get_subscription`
client call shows up among the sweeper's own effects) and terminates with the
`AttributeError` from calling `.apply_async` on the task call's `None` return:
no job is submitted. -/
theorem c5_kickoff_crash :
    subscriptionDue exIntegration5.metadata 1000000 = true ∧
      kickoff_vsts_subscription_check exDb5 exInst 1000000 =
        ⟨[Effect.getSubscriptionCall 7], some SyncError.attributeError⟩ :=
  ⟨rfl, rfl⟩

/-- C6: `vsts_subscription_check` performs the `update_subscription` client
call, sets the subscription's `'check'` timestamp in the integration's
metadata to `now` and saves the integration exactly when the live status
fetched by `get_subscription` equals `'disabledBySystem'`; for any other
status the only effect is the initial `get_subscription` read and the
integration is left unchanged. -/
theorem c6_vsts_check (integration : Integration) (inst : Nat → Installation)
    (oid : Nat) (now : Int) (sub : Subscription)
    (hsub : integration.metadata.subscription = some sub) :
    ((inst integration.id).getSubscriptionStatus sub.id = "disabledBySystem" →
      vsts_subscription_check integration inst oid now =
        ⟨[Effect.getSubscriptionCall sub.id, Effect.updateSubscriptionCall sub.id,
          Effect.integrationSave integration.id], none,
          { integration with metadata := ⟨some { sub with check := some now }⟩ }⟩) ∧
    ((inst integration.id).getSubscriptionStatus sub.id ≠ "disabledBySystem" →
      vsts_subscription_check integration inst oid now =
        ⟨[Effect.getSubscriptionCall sub.id], none, integration⟩) := by
  unfold vsts_subscription_check
  rw [hsub]
  constructor <;> intro h <;> simp [h]

/-- Example installation for C6 whose live subscription status is the
disabled-by-platform value. -/
def exInstDisabled : Nat → Installation := fun _ =>
  { shouldSync := fun _ => true
    hasRepoAccess := fun _ => true
    syncMetadataRaises := false
    getSubscriptionStatus := fun _ => "disabledBySystem" }

/-- Example integration for C6 with an old last-check timestamp. -/
def exIntegration6 : Integration := ⟨31, "vsts", ⟨some ⟨8, some 100⟩⟩⟩

/-- C6 witness: on a disabled subscription the client update runs, the
`'check'` timestamp becomes `now` and the integration is saved. -/
theorem c6_vsts_check_witness :
    vsts_subscription_check exIntegration6 exInstDisabled 1 500 =
      ⟨[Effect.getSubscriptionCall 8, Effect.updateSubscriptionCall 8,
        Effect.integrationSave 31], none, ⟨31, "vsts", ⟨some ⟨8, some 500⟩⟩⟩⟩ :=
  (c6_vsts_check exIntegration6 exInstDisabled 1 500 ⟨8, some 100⟩ rfl).1 rfl

/-- C7: `migrate_repo` on a repository whose status is DISABLED, with
`has_repo_access` granted, leaves the repository with status VISIBLE,
`integration_id` equal to the new integration's id and provider equal to
`'integrations:'` followed by the integration's provider tag; a repository in
any status other than DISABLED keeps its status unchanged, whatever else the
job does. -/
theorem c7_migrate_repo (db : DB) (inst : Nat → Installation)
    (repo_id integration_id organization_id : Nat) :
    (∀ integ repo, findIntegration db integration_id = some integ →
      findRepository db repo_id = some repo →
      (inst integ.id).hasRepoAccess repo = true →
      repo.status = ObjectStatus.DISABLED →
      ∃ r', (migrate_repo db inst repo_id integration_id organization_id).repo = some r' ∧
        r'.status = ObjectStatus.VISIBLE ∧
        r'.integration_id = some integration_id ∧
        r'.provider = some ("integrations:" ++ integ.provider)) ∧
    (∀ repo, findRepository db repo_id = some repo →
      repo.status ≠ ObjectStatus.DISABLED →
      ∀ r', (migrate_repo db inst repo_id integration_id organization_id).repo = some r' →
        r'.status = repo.status) := by
  constructor
  · intro integ repo hinteg hrepo hacc hdis
    unfold migrate_repo
    rw [hinteg, hrepo]
    refine ⟨{ repo with
        integration_id := some integration_id
        provider := some ("integrations:" ++ integ.provider)
        status := ObjectStatus.VISIBLE }, ?_, rfl, rfl, rfl⟩
    simp only [hacc]
    rw [if_pos trivial]
    split <;> simp [hdis]
  · intro repo hrepo hne r' hr'
    unfold migrate_repo at hr'
    cases hinteg : findIntegration db integration_id with
    | none =>
      rw [hinteg] at hr'
      simp only [hrepo, MigrateRun.repo, Option.some.injEq] at hr'
      rw [← hr']
    | some integ =>
      rw [hinteg, hrepo] at hr'
      simp only [] at hr'
      by_cases hacc : (inst integ.id).hasRepoAccess repo = true
      · rw [hacc, if_pos rfl] at hr'
        split at hr' <;>
          (simp only [MigrateRun.repo, Option.some.injEq] at hr'
           rw [← hr']
           simp [hne])
      · rw [if_neg hacc] at hr'
        simp only [MigrateRun.repo, Option.some.injEq] at hr'
        rw [← hr']

/-- Example database for C7: integration 40, organization 5, and a DISABLED
repository 50 previously bound to a plugin. -/
def exDb7 : DB := { emptyDB with
  integrations := [⟨40, "github", ⟨none⟩⟩]
  organizations := [5]
  repositories := [⟨50, none, some "plugin-github", ObjectStatus.DISABLED⟩] }

/-- C7 witness: after migrating DISABLED repository 50 to integration 40, it
is VISIBLE with the new integration id and provider tag. -/
theorem c7_migrate_repo_witness :
    ∃ r', (migrate_repo exDb7 exInst 50 40 5).repo = some r' ∧
      r'.status = ObjectStatus.VISIBLE ∧ r'.integration_id = some 40 ∧
      r'.provider = some ("integrations:" ++ "github") :=
  (c7_migrate_repo exDb7 exInst 50 40 5).1 ⟨40, "github", ⟨none⟩⟩
    ⟨50, none, some "plugin-github", ObjectStatus.DISABLED⟩ rfl rfl rfl rfl

/-- C8: `sync_status_outbound` on a group id for which no Group row has
status UNRESOLVED or RESOLVED (including a deleted Group) performs no
installation call, records no analytics and completes successfully as a
no-op. -/
theorem c8_status_noop (db : DB) (inst : Nat → Installation) (gid eid : Nat)
    (h : ∀ g ∈ db.groups, g.id = gid →
      g.status ≠ GroupStatus.UNRESOLVED ∧ g.status ≠ GroupStatus.RESOLVED) :
    sync_status_outbound db inst gid eid = ⟨[], none⟩ := by
  have hfind : findStatusSyncGroup db gid = none := by
    unfold findStatusSyncGroup
    rw [List.find?_eq_none]
    intro g hg
    simp only [Bool.and_eq_true, Bool.or_eq_true, beq_iff_eq, not_and, not_or]
    intro hid
    exact h g hg hid
  unfold sync_status_outbound
  rw [hfind]

/-- Example database for C8: group 60 exists but is IGNORED. -/
def exDb8 : DB := { emptyDB with
  groups := [⟨60, GroupStatus.IGNORED, 1, 2⟩]
  organizations := [1] }

/-- C8 witness: status sync on the IGNORED group 60 is a successful no-op,
even with a dangling external-issue id. -/
theorem c8_status_noop_witness :
    sync_status_outbound exDb8 exInst 60 999 = ⟨[], none⟩ :=
  c8_status_noop exDb8 exInst 60 999 (by decide)

/-- C9: in `sync_status_outbound` the feature-flag check precedes the
ExternalIssue and Integration loads: whenever every Group row with the given
id belongs to an (existing) organization whose issue-sync flag is false, the
job completes successfully for every `external_issue_id` — including ids that
no longer resolve — and its outcome does not depend on the ExternalIssue and
Integration tables at all. -/
theorem c9_flag_checked_first (db : DB) (inst : Nat → Installation) (gid eid : Nat)
    (h : ∀ g ∈ db.groups, g.id = gid →
      db.organizations.contains g.organization_id = true ∧
        db.issueSyncFlag g.organization_id = false) :
    sync_status_outbound db inst gid eid = ⟨[], none⟩ ∧
      sync_status_outbound db inst gid eid =
        sync_status_outbound
          { db with externalIssues := [], integrations := [] } inst gid eid := by
  have hgen : ∀ xs ys,
      sync_status_outbound { db with externalIssues := xs, integrations := ys } inst gid eid
        = ⟨[], none⟩ := by
    intro xs ys
    unfold sync_status_outbound
    cases hg : findStatusSyncGroup { db with externalIssues := xs, integrations := ys } gid with
    | none => rfl
    | some g =>
      have hg2 : db.groups.find? (fun g => g.id == gid &&
          (g.status == GroupStatus.UNRESOLVED || g.status == GroupStatus.RESOLVED)) = some g := hg
      have hmem : g ∈ db.groups := List.mem_of_find?_eq_some hg2
      have hid : g.id = gid := by
        have hp := List.find?_some hg2
        simp only [Bool.and_eq_true, beq_iff_eq] at hp
        exact hp.1
      obtain ⟨hc, hf⟩ := h g hmem hid
      have hc2 : g.organization_id ∈ db.organizations := by simpa using hc
      simp [hc2, hf]
  have h0 : sync_status_outbound db inst gid eid = ⟨[], none⟩ :=
    hgen db.externalIssues db.integrations
  exact ⟨h0, h0.trans (hgen [] []).symm⟩

/-- Example database for C9: group 61 is UNRESOLVED in organization 1, whose
issue-sync flag is false; external issue 77 does not exist. -/
def exDb9 : DB := { emptyDB with
  groups := [⟨61, GroupStatus.UNRESOLVED, 1, 2⟩]
  organizations := [1] }

/-- C9 witness: with the flag off, status sync succeeds although external
issue 77 does not resolve. -/
theorem c9_flag_checked_first_witness :
    sync_status_outbound exDb9 exInst 61 77 = ⟨[], none⟩ :=
  (c9_flag_checked_first exDb9 exInst 61 77 (by decide)).1

/-- C10: for a live subscription status other than `'disabledBySystem'`,
`vsts_subscription_check` leaves the integration — metadata and `'check'`
timestamp included — completely unchanged; hence if the integration was due
at some scan time it stays due at every later scan time, so every subsequent
sweep selects it again. -/
theorem c10_healthy_frame (integration : Integration) (inst : Nat → Installation)
    (oid : Nat) (now : Int) (sub : Subscription)
    (hsub : integration.metadata.subscription = some sub)
    (hstatus : (inst integration.id).getSubscriptionStatus sub.id ≠ "disabledBySystem") :
    (vsts_subscription_check integration inst oid now).integration = integration ∧
      (∀ t t' : Int, subscriptionDue integration.metadata t = true → t ≤ t' →
        subscriptionDue
          (vsts_subscription_check integration inst oid now).integration.metadata t'
          = true) := by
  have hrun : vsts_subscription_check integration inst oid now =
      ⟨[Effect.getSubscriptionCall sub.id], none, integration⟩ := by
    unfold vsts_subscription_check
    rw [hsub]
    simp [hstatus]
  rw [hrun]
  refine ⟨rfl, fun t t' hdue hle => ?_⟩
  simp only [subscriptionDue, hsub] at hdue ⊢
  rcases hcheck : sub.check with _ | c
  · rfl
  · by_cases h1 : c > t - sixHours
    · rw [hcheck] at hdue
      simp [h1] at hdue
    · have h2 : ¬ c > t' - sixHours := by
        unfold sixHours at h1 ⊢
        omega
      simp [h2]

/-- C10 witness: a healthy check run at time 1000 leaves `exIntegration5`
unchanged, and it is still due at the later scan time 2000. -/
theorem c10_healthy_frame_witness :
    (vsts_subscription_check exIntegration5 exInst 1 1000).integration = exIntegration5 ∧
      subscriptionDue
        (vsts_subscription_check exIntegration5 exInst 1 1000).integration.metadata 2000
        = true :=
  ⟨(c10_healthy_frame exIntegration5 exInst 1 1000 ⟨7, none⟩ rfl (by decide)).1,
   (c10_healthy_frame exIntegration5 exInst 1 1000 ⟨7, none⟩ rfl (by decide)).2 1000 2000
     rfl (by decide)⟩

end Sentry
